import Mathlib

/-!
Verification of the rain forecast engine (internal/cmd/forecast/forecast.go).

The development shallowly embeds the forecasting pipeline: the yaml node model,
parameter-reference resolution (resolveParamRefs / resolveRefs), the per-resource
dispatch (forecastForType), the per-template walk and verdict (predict), and the
process exit mapping of the forecast command (Cmd).

External collaborators whose bodies live outside the embedded sources
(cfn.ResourceAlreadyExists, checkPermissions, the estimate table, iam.GetCallerArn,
the registered type-specific forecasters, s11n.GetMapValue) are modelled from the
spec: they appear either as abstract function parameters collected in the External
structure, or as definitions whose doc comment starts with "Modelled from the spec".
-/

namespace Rain

/-- A parsed yaml document node (yaml.Node). Every node carries its source line.
A mapping node's content alternates key/value entries; the embedding holds them
as key/value pairs. -/
inductive Node where
  | scalar (value : String) (line : Nat)
  | mapping (pairs : List (Node × Node)) (line : Nat)
  | sequence (elems : List Node) (line : Nat)
deriving Repr

/-- The Value field of a yaml.Node: the string of a scalar, empty otherwise. -/
def Node.value : Node → String
  | .scalar v _ => v
  | .mapping _ _ => ""
  | .sequence _ _ => ""

/-- The Line field of a yaml.Node. -/
def Node.line : Node → Nat
  | .scalar _ l => l
  | .mapping _ l => l
  | .sequence _ l => l

/-- The key/value pairs a pairwise walk of node.Content visits: the entries of a
mapping node. A scalar node has no content, so such a walk visits nothing. -/
def Node.contentPairs : Node → List (Node × Node)
  | .mapping pairs _ => pairs
  | _ => []

/-- The deploy configuration (dc.DeployConfig), reduced to the resolved parameter
key/value list consumed by the engine (dc.Params). -/
structure DeployConfig where
  params : List (String × String)
deriving Repr, DecidableEq

/-- First parameter whose ParameterKey equals the given key, as scanned by the
loop over dc.Params in resolveParamRefs. -/
def lookupParam (dc : DeployConfig) (key : String) : Option String :=
  (dc.params.find? (fun p => p.1 == key)).map (·.2)

/-- The guard of the replacement branch of resolveParamRefs: a map entry whose key
is the literal "Ref" and whose value is a scalar naming a known parameter yields
that parameter's value. (The replacement also requires the parent to be a mapping
node, which holds at every call site that passes a key name.) -/
def refValue (dc : DeployConfig) (k v : Node) : Option String :=
  if k.value == "Ref" then
    match v with
    | .scalar s _ => lookupParam dc s
    | _ => none
  else none

mutual

/-- Functional form of resolveParamRefs acting on one node as the parent of its
own content: a mapping whose pair scan hits a Ref match becomes the parameter's
scalar value (the in-place write of a fresh scalar node, hence line 0); a
sequence has each element resolved (elements are visited with an empty key name,
so they can never replace the sequence itself); a scalar is untouched. -/
def resolveNode (dc : DeployConfig) : Node → Node
  | .scalar v l => .scalar v l
  | .mapping pairs l =>
      match resolvePairs dc pairs with
      | .inl v => .scalar v 0
      | .inr pairs' => .mapping pairs' l
  | .sequence elems l => .sequence (resolveList dc elems) l

/-- The pair-by-pair scan of a mapping node's content in resolveParamRefs. When a
pair matches the Ref branch, the parent mapping is overwritten with the scalar
parameter value: entries already rewritten are discarded with it, and the loop
stops because the overwritten parent has no content left. Otherwise the pair's
value is resolved recursively and the scan continues. -/
def resolvePairs (dc : DeployConfig) : List (Node × Node) → String ⊕ List (Node × Node)
  | [] => .inr []
  | (k, v) :: rest =>
      match refValue dc k v with
      | some pv => .inl pv
      | none =>
        match resolvePairs dc rest with
        | .inl pv => .inl pv
        | .inr rest' => .inr ((k, resolveNode dc v) :: rest')

/-- Element-wise resolution of a sequence node's content. -/
def resolveList (dc : DeployConfig) : List Node → List Node
  | [] => []
  | n :: rest => resolveNode dc n :: resolveList dc rest

end

/-- Modelled from the spec: s11n.GetMapValue (not under the embedded sources)
returns the value node mapped to the given string key of a mapping node, or
nothing when the key is absent; the parsed document exposes its sections as
ordered key/value pairs. -/
def getMapValue (n : Node) (key : String) : Option Node :=
  match n with
  | .mapping pairs _ => (pairs.find? (fun p => p.1.value == key)).map (·.2)
  | _ => none

/-- Helper for setMapValue: rewrite the first pair whose key matches. -/
def setPairValue : List (Node × Node) → String → Node → List (Node × Node)
  | [], _, _ => []
  | (k, v) :: rest, key, newVal =>
      if k.value == key then (k, newVal) :: rest
      else (k, v) :: setPairValue rest key newVal

/-- Replace the value mapped to the given key (first occurrence) of a mapping
node: the functional image of writing through the pointer GetMapValue returned. -/
def setMapValue (n : Node) (key : String) (newVal : Node) : Node :=
  match n with
  | .mapping pairs l =>
      .mapping (setPairValue pairs key newVal) l
  | other => other

/-- resolveRefs: look up the resource's Properties subtree and resolve parameter
references in it, in place. The source iterates props.Content pairwise with props
as the parent, which for the mapping node produced by the parser is exactly the
mapping case of resolveNode; a nil or scalar Properties value has no content and
is left untouched. The returned node is the resource after the in-place update. -/
def resolveRefs (dc : DeployConfig) (resource : Node) : Node :=
  match getMapValue resource "Properties" with
  | none => resource
  | some props =>
      match props with
      | .mapping pairs l =>
          let props' :=
            match resolvePairs dc pairs with
            | .inl v => Node.scalar v 0
            | .inr pairs' => Node.mapping pairs' l
          setMapValue resource "Properties" props'
      | _ => resource

/-- Caller environment (Env): partition, region and account extracted from the
caller identity. -/
structure Env where
  partition : String
  region : String
  account : String
deriving Repr, DecidableEq

/-- PredictionInput, the per-resource working set handed to prediction functions.
The existing-stack descriptor (an AWS SDK value consumed only by external
collaborators) is omitted. -/
structure PredictionInput where
  source : Node
  stackName : String
  resource : Node
  logicalId : String
  stackExists : Bool
  typeName : String
  dc : DeployConfig
  env : Env
  roleArn : String

/-- Forecast: predictions for a single resource, and, for the accumulator created
with empty type name and logical id, for the whole template. -/
structure Forecast where
  typeName : String
  logicalId : String
  passed : List String
  failed : List String
deriving Repr, DecidableEq

/-- GetNumChecked: total number of checks recorded. -/
def Forecast.getNumChecked (f : Forecast) : Nat :=
  f.passed.length + f.failed.length

/-- GetNumFailed. -/
def Forecast.getNumFailed (f : Forecast) : Nat :=
  f.failed.length

/-- GetNumPassed. -/
def Forecast.getNumPassed (f : Forecast) : Nat :=
  f.passed.length

/-- Append: concatenate another forecast's failed and passed messages onto this
one, in order. -/
def Forecast.append (f g : Forecast) : Forecast :=
  { f with failed := f.failed ++ g.failed, passed := f.passed ++ g.passed }

/-- The message format of Forecast.Add: line number, type name, logical id and
the human-readable condition. -/
def forecastMessage (lineNumber : Nat) (typeName logicalId message : String) : String :=
  toString lineNumber ++ ": " ++ typeName ++ " " ++ logicalId ++ " - " ++ message

/-- Add: record one pass or fail message, formatted with the ambient line number
(the LineNumber global, threaded explicitly here). -/
def Forecast.add (f : Forecast) (lineNumber : Nat) (passed : Bool) (message : String) : Forecast :=
  let msg := forecastMessage lineNumber f.typeName f.logicalId message
  if passed then { f with passed := f.passed ++ [msg] }
  else { f with failed := f.failed ++ [msg] }

/-- makeForecast: a fresh forecast for a type name and logical id. -/
def makeForecast (typeName logicalId : String) : Forecast :=
  { typeName := typeName, logicalId := logicalId, passed := [], failed := [] }

/-- The zero-value Forecast literal returned when the permission check errors. -/
def emptyForecast : Forecast :=
  { typeName := "", logicalId := "", passed := [], failed := [] }

/-- StackAction, inferred solely from whether the target stack already exists. -/
inductive StackAction where
  | create
  | update
deriving Repr, DecidableEq

/-- Modelled from the spec: the outcome of checkPermissions (body not under the
embedded sources). On success it hands back the forecast it appended its
per-authorization-action entries to, together with the ambient line number it
may have rewritten; an API failure of the policy-evaluation capability is an
error outcome. -/
inductive PermResult where
  | ok (forecast : Forecast) (lineNumber : Nat)
  | err (lineNumber : Nat)

/-- Whether a PermResult is the error outcome. -/
def PermResult.isErr : PermResult → Bool
  | .ok _ _ => false
  | .err _ => true

/-- The external collaborators of the engine, abstracted as function parameters:
the existence probe and stack-ownership test behind cfn.ResourceAlreadyExists,
the permission checker, the registered type-specific forecasters, the static
estimate table, the caller identity lookup and the configured region. All are
modelled from the spec; their bodies are not under the embedded sources. -/
structure External where
  existsExternally : String → Node → Bool → Node → DeployConfig → Bool
  ownedByStack : String → Node → Bool → Node → DeployConfig → Bool
  checkPermissions : PredictionInput → Forecast → Nat → PermResult
  forecasters : String → Option (PredictionInput → Forecast)
  estimates : String → StackAction → Option Nat
  getCallerArn : Option String
  region : String

/-- Modelled from the spec: cfn.ResourceAlreadyExists (body not under the embedded
sources) reports a collision exactly when a resource with the expected identity
exists outside the target stack and is not owned by it; it reports none when the
resource does not exist or is already stack-owned. -/
def resourceAlreadyExists (ext : External) (typeName : String) (resource : Node)
    (stackExists : Bool) (sourceNode : Node) (dc : DeployConfig) : Bool :=
  ext.existsExternally typeName resource stackExists sourceNode dc
    && ! ext.ownedByStack typeName resource stackExists sourceNode dc

/-- Modelled from the spec: GetResourceEstimate (body not under the embedded
sources) looks up the static estimate table by type identifier and action;
an absent entry resolves to the default of 1 second, matching the call sites
that substitute 1 on a lookup miss. -/
def getResourceEstimate (ext : External) (typeName : String) (action : StackAction) : Nat :=
  (ext.estimates typeName action).getD 1

/-- The Type value of a resource node, as read by the template walk. -/
def resourceTypeName (resource : Node) : String :=
  ((getMapValue resource "Type").map Node.value).getD ""

/-- Modelled from the spec: PredictTotalEstimate (body not under the embedded
sources) sums the per-resource estimate over every resource of the template's
Resources section, the action inferred once from the stack-exists flag and
applied uniformly to the whole run. -/
def predictTotalEstimate (ext : External) (source : Node) (stackExists : Bool) : Nat :=
  let action := if stackExists then StackAction.update else StackAction.create
  ((((getMapValue source "Resources").map Node.contentPairs).getD []).map
    (fun p => getResourceEstimate ext (resourceTypeName p.2) action)).sum

/-- The configuration flags handed through from the command layer: the optional
resource type filter (empty means no filter), the skip-permission-checks flag,
and the optional override role for permission evaluation. -/
structure Flags where
  resourceType : String
  skipIAM : Bool
  roleArn : String
deriving Repr, DecidableEq

/-- The result of one forecastForType call: the per-resource forecast, the
resource node after the in-place reference resolution, and the ambient line
number after the call. -/
structure ForecastOutput where
  forecast : Forecast
  resource : Node
  lineNumber : Nat

/-- The generic existence check block of forecastForType: a fail entry
"Already exists" recorded at the ambient line on a collision, otherwise the
ambient line is moved to the resource's line and a pass entry "Does not exist"
is recorded there. -/
def existenceCheck (ext : External) (input : PredictionInput) (forecast : Forecast)
    (lineNumber : Nat) : Forecast × Nat :=
  if resourceAlreadyExists ext input.typeName input.resource input.stackExists
      input.source input.dc then
    (forecast.add lineNumber false "Already exists", lineNumber)
  else
    (forecast.add input.resource.line true "Does not exist", input.resource.line)

/-- The dispatch to a registered type-specific forecaster: when the registry has
an entry for the type identifier its result is appended, otherwise the forecast
is returned as is. -/
def runForecaster (ext : External) (input : PredictionInput) (forecast : Forecast) : Forecast :=
  match ext.forecasters input.typeName with
  | some fn => forecast.append (fn input)
  | none => forecast

/-- forecastForType: run every check for one resource. A non-empty type filter
that differs from the resource's type returns the fresh empty forecast at once.
Otherwise: parameter references are resolved in place; a per-resource time
estimate is computed for the transient progress display only (it contributes
nothing to the forecast and is not modelled); the existence check records its
entry; unless skipped, the permission check runs, and if it errors the whole
per-resource forecast is dropped in favour of the zero-value Forecast; finally
a registered forecaster for the type, if any, has its results appended. -/
def forecastForType (ext : External) (flags : Flags) (input : PredictionInput)
    (lineNumber : Nat) : ForecastOutput :=
  let forecast := makeForecast input.typeName input.logicalId
  if flags.resourceType ≠ "" ∧ flags.resourceType ≠ input.typeName then
    ⟨forecast, input.resource, lineNumber⟩
  else
    let resource := resolveRefs input.dc input.resource
    let input := { input with resource := resource }
    let step :=
      if resourceAlreadyExists ext input.typeName input.resource input.stackExists
          input.source input.dc then
        (forecast.add lineNumber false "Already exists", lineNumber)
      else
        (forecast.add input.resource.line true "Does not exist", input.resource.line)
    if flags.skipIAM then
      ⟨runForecaster ext input step.1, resource, step.2⟩
    else
      match ext.checkPermissions input step.1 step.2 with
      | .err l => ⟨emptyForecast, resource, l⟩
      | .ok f l => ⟨runForecaster ext input f, resource, l⟩

/-- The fatal abort conditions of predict, each raised as an unrecoverable
signal by the source. -/
inductive FatalError where
  | missingResourcesSection
  | missingType (logicalId : String)
  | callerArnUnavailable
  | malformedCallerArn (callerArn : String)
deriving Repr, DecidableEq

/-- Go's strings.Split for a single-character separator: the token list of the
caller identity. Splitting the empty string yields one empty token. -/
def splitCharList (sep : Char) : List Char → List (List Char)
  | [] => [[]]
  | c :: rest =>
      let r := splitCharList sep rest
      if c = sep then [] :: r
      else
        match r with
        | [] => [[c]]
        | g :: gs => (c :: g) :: gs

/-- Split a string at every occurrence of the separator character. -/
def splitOnChar (sep : Char) (s : String) : List String :=
  (splitCharList sep s.toList).map (fun cs => String.mk cs)

/-- The per-resource loop body of predict: for each logical id / resource pair of
the Resources section, the ambient line is set to the logical id's line, the
resource must carry a Type, the caller identity is fetched and must split into
six colon-separated tokens, the prediction input is assembled (the override role
defaulting to the caller identity), and forecastForType's result is appended to
the accumulating forecast. -/
def predictLoop (ext : External) (flags : Flags) (source : Node) (stackName : String)
    (stackExists : Bool) (dc : DeployConfig) :
    List (Node × Node) → Forecast → Except FatalError Forecast
  | [], forecast => .ok forecast
  | (r, resource) :: rest, forecast =>
      let logicalId := r.value
      let lineNumber := r.line
      match getMapValue resource "Type" with
      | none => .error (.missingType logicalId)
      | some typeNode =>
        let typeName := typeNode.value
        match ext.getCallerArn with
        | none => .error .callerArnUnavailable
        | some callerArn =>
          let arnTokens := splitOnChar ':' callerArn
          if arnTokens.length ≠ 6 then .error (.malformedCallerArn callerArn)
          else
            let env : Env :=
              { partition := arnTokens.getD 1 "", region := ext.region,
                account := arnTokens.getD 4 "" }
            let roleArn := if flags.roleArn == "" then callerArn else flags.roleArn
            let input : PredictionInput :=
              { source := source, stackName := stackName, resource := resource,
                logicalId := logicalId, stackExists := stackExists,
                typeName := typeName, dc := dc, env := env, roleArn := roleArn }
            let out := forecastForType ext flags input lineNumber
            predictLoop ext flags source stackName stackExists dc rest
              (forecast.append out.forecast)

/-- The outcome of a non-fatal predict run: the accumulated top-level forecast,
the total time estimate, and the verdict the source returns (true exactly when
no check failed). -/
structure PredictResult where
  forecast : Forecast
  totalSeconds : Nat
  verdict : Bool
deriving Repr, DecidableEq

/-- predict: walk the Resources section (its absence is a fatal abort), run
forecastForType for every resource, compute the total time estimate, and report
failure when any check failed, success otherwise. -/
def predict (ext : External) (flags : Flags) (source : Node) (stackName : String)
    (stackExists : Bool) (dc : DeployConfig) : Except FatalError PredictResult :=
  match getMapValue source "Resources" with
  | none => .error .missingResourcesSection
  | some resources =>
      match predictLoop ext flags source stackName stackExists dc
          resources.contentPairs (makeForecast "" "") with
      | .error e => .error e
      | .ok forecast =>
          if forecast.getNumFailed > 0 then
            .ok { forecast := forecast,
                  totalSeconds := predictTotalEstimate ext source stackExists,
                  verdict := false }
          else
            .ok { forecast := forecast,
                  totalSeconds := predictTotalEstimate ext source stackExists,
                  verdict := true }

/-- The process exit signal of the forecast command around predict: a fatal abort
is an unrecoverable signal (exit status 2), a false verdict exits with status 1,
and a true verdict ends the run with status 0. -/
def runExitCode (ext : External) (flags : Flags) (source : Node) (stackName : String)
    (stackExists : Bool) (dc : DeployConfig) : Nat :=
  match predict ext flags source stackName stackExists dc with
  | .error _ => 2
  | .ok res => if res.verdict then 0 else 1

/-! Concrete sample data for the closed instance theorems. -/

/-- An example set of external collaborators for concrete runs: nothing exists
externally, permission checks succeed without adding entries, no forecaster is
registered, the estimate table is empty, and the caller identity is a plain
six-token arn. -/
def sampleExternal : External :=
  { existsExternally := fun _ _ _ _ _ => false
    ownedByStack := fun _ _ _ _ _ => false
    checkPermissions := fun _ f l => .ok f l
    forecasters := fun _ => none
    estimates := fun _ _ => none
    getCallerArn := some "arn:aws:iam::755952356119:role/Admin"
    region := "us-east-1" }

/-- A deploy configuration binding parameter P to V. -/
def dcPresent : DeployConfig := ⟨[("P", "V")]⟩

/-- A deploy configuration with no parameters. -/
def dcAbsent : DeployConfig := ⟨[]⟩

/-- A concrete bucket resource whose BucketName property references parameter P. -/
def sampleBucketResource : Node :=
  .mapping [(.scalar "Type" 3, .scalar "AWS::S3::Bucket" 3),
            (.scalar "Properties" 4,
              .mapping [(.scalar "BucketName" 5,
                .mapping [(.scalar "Ref" 5, .scalar "P" 5)] 5)] 4)] 2

/-- The bucket resource after reference resolution against dcPresent: the
reference node has been replaced in place by the scalar V (a fresh node, line 0). -/
def sampleBucketResolved : Node :=
  .mapping [(.scalar "Type" 3, .scalar "AWS::S3::Bucket" 3),
            (.scalar "Properties" 4,
              .mapping [(.scalar "BucketName" 5, .scalar "V" 0)] 4)] 2

/-- A one-resource template: Resources.Bucket of type AWS::S3::Bucket. -/
def sampleTemplate : Node :=
  .mapping [(.scalar "Resources" 1,
    .mapping [(.scalar "Bucket" 2, sampleBucketResource)] 1)] 0

/-- A concrete prediction input for instance runs. -/
def sampleInput (typeName logicalId : String) (resource : Node) : PredictionInput :=
  { source := sampleTemplate, stackName := "forecast-stack", resource := resource,
    logicalId := logicalId, stackExists := false, typeName := typeName,
    dc := dcPresent, env := ⟨"aws", "us-east-1", "755952356119"⟩,
    roleArn := "arn:aws:iam::755952356119:role/Admin" }

/-- A concrete EC2 resource node with no Properties section. -/
def sampleEC2Resource : Node :=
  .mapping [(.scalar "Type" 8, .scalar "AWS::EC2::Instance" 8)] 7

/-! Claim theorems. -/

/-- C6: for every produced Forecast the number of checks counted as checked
equals the number counted as passed plus the number counted as failed, and the
two operations that record or append messages preserve the invariant: Add grows
the checked count by exactly one recorded message and Append by exactly the
appended forecast's checked count. -/
theorem checked_eq_passed_plus_failed :
    (∀ f : Forecast, f.getNumChecked = f.getNumPassed + f.getNumFailed) ∧
    (∀ (f : Forecast) (ln : Nat) (b : Bool) (m : String),
      (f.add ln b m).getNumChecked = f.getNumChecked + 1) ∧
    (∀ f g : Forecast, (f.append g).getNumChecked = f.getNumChecked + g.getNumChecked) := by
  refine ⟨fun f => rfl, fun f ln b m => ?_, fun f g => ?_⟩
  · cases b <;> simp [Forecast.add, Forecast.getNumChecked] <;> omega
  · simp [Forecast.append, Forecast.getNumChecked]
    omega

/-- C9: a resource whose type identifier differs from a non-empty resource type
filter receives the fresh empty per-resource forecast: no existence, permission,
estimate or forecaster messages, the resource node not mutated by reference
resolution, and the ambient line untouched. -/
theorem filtered_type_skips_all_checks (ext : External) (flags : Flags)
    (input : PredictionInput) (ln : Nat)
    (h1 : flags.resourceType ≠ "") (h2 : flags.resourceType ≠ input.typeName) :
    forecastForType ext flags input ln =
      ⟨makeForecast input.typeName input.logicalId, input.resource, ln⟩ := by
  unfold forecastForType
  rw [if_pos ⟨h1, h2⟩]

/-- Closed instance of the type filter theorem at a concrete input. -/
theorem filtered_type_skips_all_checks_witness :
    ("AWS::S3::Bucket" : String) ≠ "" ∧
    ("AWS::S3::Bucket" : String) ≠ "AWS::EC2::Instance" ∧
    forecastForType sampleExternal ⟨"AWS::S3::Bucket", true, ""⟩
        (sampleInput "AWS::EC2::Instance" "Instance" sampleEC2Resource) 7 =
      ⟨makeForecast "AWS::EC2::Instance" "Instance", sampleEC2Resource, 7⟩ :=
  ⟨by decide, by decide,
   filtered_type_skips_all_checks sampleExternal ⟨"AWS::S3::Bucket", true, ""⟩
     (sampleInput "AWS::EC2::Instance" "Instance" sampleEC2Resource) 7
     (by decide) (by decide)⟩

/-- C3: resolving a property subtree that is an intrinsic reference to parameter
P: when the deploy configuration binds P to a value V the resolved property is
exactly the scalar V, and when P is absent from the deploy configuration the
property is returned unchanged, still a reference. -/
theorem ref_resolution_present_or_absent (dc : DeployConfig) (P : String)
    (lk lv lm : Nat) :
    (∀ V, lookupParam dc P = some V →
      resolveNode dc (.mapping [(.scalar "Ref" lk, .scalar P lv)] lm) = .scalar V 0) ∧
    (lookupParam dc P = none →
      resolveNode dc (.mapping [(.scalar "Ref" lk, .scalar P lv)] lm) =
        .mapping [(.scalar "Ref" lk, .scalar P lv)] lm) := by
  constructor
  · intro V h
    simp [resolveNode, resolvePairs, refValue, Node.value, h]
  · intro h
    simp [resolveNode, resolvePairs, refValue, Node.value, h]

/-- Closed instance of the reference resolution theorem: with P bound to V the
reference node becomes the scalar V, and with no parameters it is unchanged. -/
theorem ref_resolution_present_or_absent_witness :
    lookupParam dcPresent "P" = some "V" ∧
    resolveNode dcPresent (.mapping [(.scalar "Ref" 1, .scalar "P" 2)] 3) =
      .scalar "V" 0 ∧
    lookupParam dcAbsent "P" = none ∧
    resolveNode dcAbsent (.mapping [(.scalar "Ref" 1, .scalar "P" 2)] 3) =
      .mapping [(.scalar "Ref" 1, .scalar "P" 2)] 3 :=
  ⟨rfl, (ref_resolution_present_or_absent dcPresent "P" 1 2 3).1 "V" rfl, rfl,
   (ref_resolution_present_or_absent dcAbsent "P" 1 2 3).2 rfl⟩

/-- C4: for a resource dispatched through the pipeline (one the type filter does
not exclude) the steps run in the fixed order: (a) reference resolution, whose
result every later step observes; (b) the existence check, recording its entry
into the fresh per-resource accumulator; (c) the permission check on that same
accumulator unless the skip flag is set; (d) the registered forecaster for the
resource's type identifier, when one is registered, appended last to the same
accumulator. -/
theorem dispatch_fixed_order (ext : External) (flags : Flags)
    (input : PredictionInput) (ln : Nat)
    (hfilt : ¬(flags.resourceType ≠ "" ∧ flags.resourceType ≠ input.typeName)) :
    forecastForType ext flags input ln =
      (let resource := resolveRefs input.dc input.resource
       let inputR := { input with resource := resource }
       let fe := existenceCheck ext inputR (makeForecast input.typeName input.logicalId) ln
       if flags.skipIAM then
         ⟨runForecaster ext inputR fe.1, resource, fe.2⟩
       else
         match ext.checkPermissions inputR fe.1 fe.2 with
         | .err l => ⟨emptyForecast, resource, l⟩
         | .ok f l => ⟨runForecaster ext inputR f, resource, l⟩) := by
  unfold forecastForType existenceCheck
  rw [if_neg hfilt]

/-- Closed instance of the dispatch order theorem, evaluated on a concrete
unfiltered bucket resource with permission checking enabled. -/
theorem dispatch_fixed_order_witness :
    ¬((⟨"", false, ""⟩ : Flags).resourceType ≠ "" ∧
      (⟨"", false, ""⟩ : Flags).resourceType ≠
        (sampleInput "AWS::S3::Bucket" "Bucket" sampleBucketResource).typeName) ∧
    forecastForType sampleExternal ⟨"", false, ""⟩
        (sampleInput "AWS::S3::Bucket" "Bucket" sampleBucketResource) 2 =
      ⟨⟨"AWS::S3::Bucket", "Bucket", ["2: AWS::S3::Bucket Bucket - Does not exist"], []⟩,
        sampleBucketResolved, 2⟩ :=
  ⟨by decide,
   dispatch_fixed_order sampleExternal ⟨"", false, ""⟩
     (sampleInput "AWS::S3::Bucket" "Bucket" sampleBucketResource) 2 (by decide)⟩

/-- C8: a resource whose type has no registered forecaster, with permission
checking skipped and the type filter not excluding it, ends with exactly one
entry in its result, produced by the existence check: a fail entry recording
"Already exists" when the probe reports a resource existing outside the stack
and not owned by it, and a pass entry recording "Does not exist" when it does
not exist or is stack-owned. -/
theorem generic_only_single_existence_entry (ext : External) (flags : Flags)
    (input : PredictionInput) (ln : Nat)
    (hfilt : ¬(flags.resourceType ≠ "" ∧ flags.resourceType ≠ input.typeName))
    (hskip : flags.skipIAM = true)
    (hpred : ext.forecasters input.typeName = none) :
    (forecastForType ext flags input ln).forecast.getNumChecked = 1 ∧
    ((ext.existsExternally input.typeName (resolveRefs input.dc input.resource)
        input.stackExists input.source input.dc = true ∧
      ext.ownedByStack input.typeName (resolveRefs input.dc input.resource)
        input.stackExists input.source input.dc = false) →
      (forecastForType ext flags input ln).forecast.failed =
        [forecastMessage ln input.typeName input.logicalId "Already exists"] ∧
      (forecastForType ext flags input ln).forecast.passed = []) ∧
    ((ext.existsExternally input.typeName (resolveRefs input.dc input.resource)
        input.stackExists input.source input.dc = false ∨
      ext.ownedByStack input.typeName (resolveRefs input.dc input.resource)
        input.stackExists input.source input.dc = true) →
      (forecastForType ext flags input ln).forecast.passed =
        [forecastMessage (resolveRefs input.dc input.resource).line input.typeName
          input.logicalId "Does not exist"] ∧
      (forecastForType ext flags input ln).forecast.failed = []) := by
  cases hE : ext.existsExternally input.typeName (resolveRefs input.dc input.resource)
      input.stackExists input.source input.dc <;>
    cases hO : ext.ownedByStack input.typeName (resolveRefs input.dc input.resource)
        input.stackExists input.source input.dc <;>
    simp [forecastForType, if_neg hfilt, hskip, runForecaster, hpred,
      resourceAlreadyExists, hE, hO, existenceCheck, Forecast.add, makeForecast,
      Forecast.getNumChecked]

/-- Closed instance of the generic-only theorem: with nothing existing
externally the single entry is the existence pass message. -/
theorem generic_only_single_existence_entry_witness :
    (forecastForType sampleExternal ⟨"", true, ""⟩
      (sampleInput "AWS::S3::Bucket" "Bucket" sampleBucketResource) 2).forecast.getNumChecked
      = 1 ∧
    (forecastForType sampleExternal ⟨"", true, ""⟩
      (sampleInput "AWS::S3::Bucket" "Bucket" sampleBucketResource) 2).forecast.passed =
      ["2: AWS::S3::Bucket Bucket - Does not exist"] ∧
    (forecastForType sampleExternal ⟨"", true, ""⟩
      (sampleInput "AWS::S3::Bucket" "Bucket" sampleBucketResource) 2).forecast.failed = [] :=
  ⟨(generic_only_single_existence_entry sampleExternal ⟨"", true, ""⟩
      (sampleInput "AWS::S3::Bucket" "Bucket" sampleBucketResource) 2
      (by decide) rfl rfl).1,
   ((generic_only_single_existence_entry sampleExternal ⟨"", true, ""⟩
      (sampleInput "AWS::S3::Bucket" "Bucket" sampleBucketResource) 2
      (by decide) rfl rfl).2.2 (Or.inl rfl)).1,
   ((generic_only_single_existence_entry sampleExternal ⟨"", true, ""⟩
      (sampleInput "AWS::S3::Bucket" "Bucket" sampleBucketResource) 2
      (by decide) rfl rfl).2.2 (Or.inl rfl)).2⟩

/-- C5: for a run that produces a report, the verdict equals "zero failed
checks", and the process exit signal is zero exactly when the accumulated
top-level forecast has no failure message; any failure message, however minor,
makes the exit signal non-zero. -/
theorem verdict_iff_no_failures (ext : External) (flags : Flags) (source : Node)
    (stackName : String) (stackExists : Bool) (dc : DeployConfig)
    (res : PredictResult)
    (h : predict ext flags source stackName stackExists dc = .ok res) :
    res.verdict = (res.forecast.getNumFailed == 0) ∧
    (runExitCode ext flags source stackName stackExists dc = 0 ↔
      res.forecast.getNumFailed = 0) := by
  have hrun : runExitCode ext flags source stackName stackExists dc =
      if res.verdict then 0 else 1 := by
    unfold runExitCode
    rw [h]
  unfold predict at h
  split at h
  · exact absurd h (by simp)
  · split at h
    · exact absurd h (by simp)
    · rename_i f hl
      split at h
      · rename_i hf
        simp only [Except.ok.injEq] at h
        subst h
        have hfne : f.getNumFailed ≠ 0 := Nat.pos_iff_ne_zero.mp hf
        refine ⟨by simp [hfne], ?_⟩
        rw [hrun]
        simp [hfne]
      · rename_i hf
        simp only [Except.ok.injEq] at h
        subst h
        have hfz : f.getNumFailed = 0 := Nat.eq_zero_of_not_pos hf
        refine ⟨by simp [hfz], ?_⟩
        rw [hrun]
        simp [hfz]

/-- Closed instance of the verdict theorem on a concrete successful run. -/
theorem verdict_iff_no_failures_witness :
    predict sampleExternal ⟨"", true, ""⟩ sampleTemplate "forecast-stack" false dcPresent =
      .ok ⟨⟨"", "", ["2: AWS::S3::Bucket Bucket - Does not exist"], []⟩, 1, true⟩ ∧
    (true = ((⟨⟨"", "", ["2: AWS::S3::Bucket Bucket - Does not exist"], []⟩, 1, true⟩ :
        PredictResult).forecast.getNumFailed == 0) ∧
      (runExitCode sampleExternal ⟨"", true, ""⟩ sampleTemplate "forecast-stack" false
          dcPresent = 0 ↔
        (⟨⟨"", "", ["2: AWS::S3::Bucket Bucket - Does not exist"], []⟩, 1, true⟩ :
          PredictResult).forecast.getNumFailed = 0)) :=
  ⟨rfl,
   verdict_iff_no_failures sampleExternal ⟨"", true, ""⟩ sampleTemplate "forecast-stack"
     false dcPresent
     ⟨⟨"", "", ["2: AWS::S3::Bucket Bucket - Does not exist"], []⟩, 1, true⟩ rfl⟩

/-- C7: the total estimate equals the sum of the per-resource estimates over
every resource of the Resources section, the action inferred once from the
stack-exists flag and applied uniformly; when the table knows none of the
types, every resource contributes the default of 1 second and the total equals
the resource count. -/
theorem total_estimate_sums_resources (ext : External) (source : Node)
    (stackExists : Bool) (pairs : List (Node × Node)) (l : Nat)
    (hres : getMapValue source "Resources" = some (.mapping pairs l)) :
    predictTotalEstimate ext source stackExists =
      (pairs.map (fun p => getResourceEstimate ext (resourceTypeName p.2)
        (if stackExists then StackAction.update else StackAction.create))).sum ∧
    ((∀ t a, ext.estimates t a = none) →
      predictTotalEstimate ext source stackExists = pairs.length) := by
  have hmain : predictTotalEstimate ext source stackExists =
      (pairs.map (fun p => getResourceEstimate ext (resourceTypeName p.2)
        (if stackExists then StackAction.update else StackAction.create))).sum := by
    unfold predictTotalEstimate
    rw [hres]
    rfl
  refine ⟨hmain, fun htable => ?_⟩
  rw [hmain]
  have hsum : ∀ ps : List (Node × Node),
      (ps.map (fun p => getResourceEstimate ext (resourceTypeName p.2)
        (if stackExists then StackAction.update else StackAction.create))).sum =
        ps.length := by
    intro ps
    induction ps with
    | nil => rfl
    | cons p rest ih =>
        simp only [List.map_cons, List.sum_cons, List.length_cons,
          getResourceEstimate, htable, Option.getD_none] at ih ⊢
        omega
  exact hsum pairs

/-- Closed instance of the total estimate theorem: a one-resource template with
an empty estimate table totals 1 second. -/
theorem total_estimate_sums_resources_witness :
    getMapValue sampleTemplate "Resources" =
      some (.mapping [(.scalar "Bucket" 2, sampleBucketResource)] 1) ∧
    predictTotalEstimate sampleExternal sampleTemplate false = 1 :=
  ⟨rfl,
   (total_estimate_sums_resources sampleExternal sampleTemplate false
     [(.scalar "Bucket" 2, sampleBucketResource)] 1 rfl).2 (fun _ _ => rfl)⟩

/-- Appending the zero-value forecast leaves an accumulator unchanged. -/
theorem forecast_append_empty (f : Forecast) : f.append emptyForecast = f := by
  simp [Forecast.append, emptyForecast]

/-- C1 (amended): when the policy-evaluation capability errors while checking
permissions for one resource, only that resource's collected results are
discarded: its forecastForType call returns the zero-value forecast, and
appending that to the accumulated top-level forecast leaves the accumulator
unchanged, so results of previously processed resources are preserved and the
run continues. -/
theorem perm_error_scoped_to_single_resource (ext : External) (flags : Flags)
    (input : PredictionInput) (ln : Nat)
    (hfilt : ¬(flags.resourceType ≠ "" ∧ flags.resourceType ≠ input.typeName))
    (hskip : flags.skipIAM = false)
    (herr : ∀ (f : Forecast) (l : Nat),
      (ext.checkPermissions { input with resource := resolveRefs input.dc input.resource }
        f l).isErr = true) :
    (forecastForType ext flags input ln).forecast = emptyForecast ∧
    ∀ acc : Forecast, acc.append (forecastForType ext flags input ln).forecast = acc := by
  have hout : (forecastForType ext flags input ln).forecast = emptyForecast := by
    unfold forecastForType
    rw [if_neg hfilt]
    simp only [hskip, Bool.false_eq_true, if_false]
    split
    · rfl
    · rename_i f l heq
      have h2 := congrArg PermResult.isErr heq
      rw [herr _ _] at h2
      simp [PermResult.isErr] at h2
  refine ⟨hout, fun acc => ?_⟩
  rw [hout]
  exact forecast_append_empty acc

/-- External collaborators whose policy-evaluation capability fails (an API
error, not an authorization decision) exactly for the resource with logical id
R2, and succeeds without adding entries elsewhere. -/
def permErrorExternal : External :=
  { sampleExternal with
    checkPermissions := fun input f l =>
      if input.logicalId == "R2" then .err l else .ok f l }

/-- A two-resource template: R1 of type AWS::A::A, then R2 of type AWS::B::B. -/
def twoResourceTemplate : Node :=
  .mapping [(.scalar "Resources" 1,
    .mapping [(.scalar "R1" 2, .mapping [(.scalar "Type" 3, .scalar "AWS::A::A" 3)] 2),
              (.scalar "R2" 4, .mapping [(.scalar "Type" 5, .scalar "AWS::B::B" 5)] 4)] 1)] 0

/-- The prediction input assembled for R2 of the two-resource template. -/
def inputR2 : PredictionInput :=
  { source := twoResourceTemplate, stackName := "s",
    resource := .mapping [(.scalar "Type" 5, .scalar "AWS::B::B" 5)] 4,
    logicalId := "R2", stackExists := false, typeName := "AWS::B::B",
    dc := dcAbsent, env := ⟨"aws", "us-east-1", "755952356119"⟩,
    roleArn := "arn:aws:iam::755952356119:role/Admin" }

/-- C1 counterexample: running predict over the two-resource template, where the
policy-evaluation capability errors while checking R2, yields a top-level result
that still holds R1's existence entry: the accumulated results of prior
resources are NOT discarded and the top-level result is not empty. -/
theorem perm_error_keeps_prior_results_counterexample :
    predict permErrorExternal ⟨"", false, ""⟩ twoResourceTemplate "s" false dcAbsent =
      .ok ⟨⟨"", "", ["2: AWS::A::A R1 - Does not exist"], []⟩, 2, true⟩ := rfl

/-- Closed instance of the amended permission-error theorem: the failing
resource's forecast is the zero value, and appending it to an accumulator that
already holds R1's entry leaves that accumulator unchanged. -/
theorem perm_error_scoped_to_single_resource_witness :
    (forecastForType permErrorExternal ⟨"", false, ""⟩ inputR2 4).forecast =
      emptyForecast ∧
    Forecast.append ⟨"", "", ["2: AWS::A::A R1 - Does not exist"], []⟩
        (forecastForType permErrorExternal ⟨"", false, ""⟩ inputR2 4).forecast =
      ⟨"", "", ["2: AWS::A::A R1 - Does not exist"], []⟩ :=
  ⟨(perm_error_scoped_to_single_resource permErrorExternal ⟨"", false, ""⟩ inputR2 4
      (by decide) rfl (fun f l => rfl)).1,
   (perm_error_scoped_to_single_resource permErrorExternal ⟨"", false, ""⟩ inputR2 4
      (by decide) rfl (fun f l => rfl)).2
     ⟨"", "", ["2: AWS::A::A R1 - Does not exist"], []⟩⟩

/-- A template whose Resources section is present but holds no resources. -/
def emptyResourcesTemplate : Node :=
  .mapping [(.scalar "Resources" 1, .mapping [] 1)] 0

/-- C2 counterexample: a template with a present but empty Resources section is
not a fatal abort: predict returns a report with zero checks and the success
verdict, and the process exit signal is zero. -/
theorem empty_resources_section_succeeds_counterexample :
    predict sampleExternal ⟨"", true, ""⟩ emptyResourcesTemplate "s" false dcAbsent =
      .ok ⟨makeForecast "" "", 0, true⟩ ∧
    runExitCode sampleExternal ⟨"", true, ""⟩ emptyResourcesTemplate "s" false dcAbsent = 0 :=
  ⟨rfl, rfl⟩

/-- C2 (amended): a template with no Resources section at all aborts the run
fatally: predict raises the structural error without producing any check
result, and the process exit signal is non-zero. -/
theorem missing_resources_section_fatal (ext : External) (flags : Flags)
    (source : Node) (stackName : String) (stackExists : Bool) (dc : DeployConfig)
    (h : getMapValue source "Resources" = none) :
    predict ext flags source stackName stackExists dc =
      .error .missingResourcesSection ∧
    runExitCode ext flags source stackName stackExists dc = 2 := by
  have hp : predict ext flags source stackName stackExists dc =
      .error .missingResourcesSection := by
    unfold predict
    rw [h]
  refine ⟨hp, ?_⟩
  unfold runExitCode
  rw [hp]

/-- Closed instance of the missing-Resources theorem: a template with only an
Outputs section aborts fatally with a non-zero exit signal. -/
theorem missing_resources_section_fatal_witness :
    getMapValue (.mapping [(.scalar "Outputs" 1, .mapping [] 1)] 0) "Resources" = none ∧
    predict sampleExternal ⟨"", true, ""⟩ (.mapping [(.scalar "Outputs" 1, .mapping [] 1)] 0)
        "s" false dcAbsent = .error .missingResourcesSection ∧
    runExitCode sampleExternal ⟨"", true, ""⟩ (.mapping [(.scalar "Outputs" 1, .mapping [] 1)] 0)
        "s" false dcAbsent = 2 :=
  ⟨rfl,
   (missing_resources_section_fatal sampleExternal ⟨"", true, ""⟩
     (.mapping [(.scalar "Outputs" 1, .mapping [] 1)] 0) "s" false dcAbsent rfl).1,
   (missing_resources_section_fatal sampleExternal ⟨"", true, ""⟩
     (.mapping [(.scalar "Outputs" 1, .mapping [] 1)] 0) "s" false dcAbsent rfl).2⟩

/-- The pair scan hits the first Ref-keyed pair whose scalar value names a bound
parameter: every earlier pair has a different key, so the whole mapping resolves
to the parameter's value. -/
theorem resolvePairs_ref_match (dc : DeployConfig) (post : List (Node × Node))
    (kRef : Node) (P V : String) (lp : Nat)
    (hk : kRef.value = "Ref") (hv : lookupParam dc P = some V) :
    ∀ pre : List (Node × Node), (∀ p ∈ pre, p.1.value ≠ "Ref") →
      resolvePairs dc (pre ++ (kRef, .scalar P lp) :: post) = .inl V := by
  intro pre
  induction pre with
  | nil =>
      intro _
      simp [resolvePairs, refValue, hk, hv]
  | cons q rest ih =>
      intro hpre
      have hq : q.1.value ≠ "Ref" := hpre q (List.mem_cons_self q rest)
      obtain ⟨k, v⟩ := q
      have hrest := ih (fun p hp => hpre p (List.mem_cons_of_mem _ hp))
      have hrest' : resolvePairs dc
          (List.append rest ((kRef, Node.scalar P lp) :: post)) = Sum.inl V := hrest
      simp only [List.cons_append, resolvePairs, refValue]
      rw [if_neg (by simpa using hq)]
      rw [hrest']

/-- C10: a resource whose Properties mapping holds a top-level key literally
named Ref (with no earlier Ref-keyed entry) whose scalar value names a
parameter present in the deploy configuration has its entire Properties mapping
node replaced by that parameter's scalar value; every other property of the
resource is discarded with it. -/
theorem ref_property_key_replaces_properties (dc : DeployConfig) (resource : Node)
    (pre post : List (Node × Node)) (kRef : Node) (P V : String) (lp lm : Nat)
    (hprops : getMapValue resource "Properties" =
      some (.mapping (pre ++ (kRef, .scalar P lp) :: post) lm))
    (hpre : ∀ p ∈ pre, p.1.value ≠ "Ref")
    (hk : kRef.value = "Ref")
    (hv : lookupParam dc P = some V) :
    resolveRefs dc resource = setMapValue resource "Properties" (.scalar V 0) := by
  have hr := resolvePairs_ref_match dc post kRef P V lp hk hv pre hpre
  unfold resolveRefs
  simp only [hprops, hr]

/-- A resource whose Properties mapping has an A property, a literal Ref key
naming parameter P, and a B property. -/
def refKeyResource : Node :=
  .mapping [(.scalar "Type" 11, .scalar "AWS::X::Y" 11),
            (.scalar "Properties" 12,
              .mapping [(.scalar "A" 13, .scalar "a" 13),
                        (.scalar "Ref" 14, .scalar "P" 14),
                        (.scalar "B" 15, .scalar "b" 15)] 12)] 10

/-- Closed instance of the Ref-key theorem: resolving the refKeyResource against
a configuration binding P to V replaces its whole Properties mapping, A and B
included, by the scalar V. -/
theorem ref_property_key_replaces_properties_witness :
    getMapValue refKeyResource "Properties" =
      some (.mapping ([(.scalar "A" 13, .scalar "a" 13)] ++
        (Node.scalar "Ref" 14, Node.scalar "P" 14) ::
        [(.scalar "B" 15, .scalar "b" 15)]) 12) ∧
    lookupParam dcPresent "P" = some "V" ∧
    resolveRefs dcPresent refKeyResource =
      setMapValue refKeyResource "Properties" (.scalar "V" 0) :=
  ⟨rfl, rfl,
   ref_property_key_replaces_properties dcPresent refKeyResource
     [(.scalar "A" 13, .scalar "a" 13)] [(.scalar "B" 15, .scalar "b" 15)]
     (.scalar "Ref" 14) "P" "V" 14 12 rfl
     (by intro p hp; simp only [List.mem_singleton] at hp; subst hp; decide)
     rfl rfl⟩

end Rain
